import Mathlib

/-!
Verification of the seo_checker audit pipeline and scoring engine.

This file shallowly embeds the core of the repository in Lean 4:

* `Value` models Python's JSON-like data (dicts, lists, strings, numbers,
  booleans, `None`); dict operations keep Python's insertion-order semantics
  (updating an existing key keeps its position, a new key is appended).
* `Doc` / `Img` model the parsed page attributes that the embedded analyzers
  read from BeautifulSoup (tag presence, attribute contents, heading levels,
  image attributes).
* `check_title_and_meta`, `check_headings`, `check_images` embed
  `title_meta_checker.py`, `headings_checker.py` and `image_checker.py`.
* `spinStep` / `pipelineList` embed the `_spin_step` wrapper and the ordered
  analyzer sequence of `run_all_checks` in `seo_checker.py`; `authorMatch`
  embeds the `_author_match` cross-check.
* `computeScoreRaw`, `sectionScoresOf`, `imagesSectionScoreOf` embed
  `compute_score` and the per-section percentage block of `seo_checker.py`;
  machine floats are modelled by exact rationals (`Rat`), and Python's
  `round(x, n)` by `pyRound` (round half to even; no reachable score value
  is a tie, see `pyRound`).
* `appendHistory` / `showHistoryItems` embed `_append_history` and
  `_show_history`; `json.dumps` / `json.loads` are Python standard library
  collaborators (not repository code) and are modelled by their contract:
  a dumped record loads back to the same value, a malformed line fails to
  load. `pyTakeLast` models the Python slice `lines[-limit:]`, including
  the `limit = 0` case where the slice returns the whole list.
* `UrlJob`, `processJob`, `outputsOf`, `historyEntriesOf`, `exitCodeOf`
  embed the per-URL driver loop, history append and exit-code computation
  of `seo_checker.py`'s main block.
-/

/-- A Python/JSON-like runtime value. -/
inductive Value where
  | null
  | bool (b : Bool)
  | num (q : Rat)
  | str (s : String)
  | list (xs : List Value)
  | dict (xs : List (String × Value))

/-- Python truthiness (`if v:`). -/
def Value.truthy : Value → Bool
  | .null => false
  | .bool b => b
  | .num q => if q = 0 then false else true
  | .str s => if s = "" then false else true
  | .list xs => if xs.isEmpty then false else true
  | .dict xs => if xs.isEmpty then false else true

/-- First binding for a key in an association list (Python dict lookup). -/
def assocGet : List (String × Value) → String → Option Value
  | [], _ => none
  | (k', v) :: t, k => if k' = k then some v else assocGet t k

/-- Update a key in an association list, Python-dict style: an existing key
keeps its position, a new key is appended at the end. -/
def assocSet : List (String × Value) → String → Value → List (String × Value)
  | [], k, x => [(k, x)]
  | (k', v) :: t, k, x => if k' = k then (k, x) :: t else (k', v) :: assocSet t k x

/-- `d.get(k)` (no default, i.e. default `None` is reported as `none`).
Looking up in a non-dict yields `none`; in Python that access would raise,
be swallowed by the surrounding `_spin_step`, and leave results unchanged,
which coincides with the behaviour modelled here at every use site. -/
def Value.get? : Value → String → Option Value
  | .dict l, k => assocGet l k
  | _, _ => none

/-- `v.get(k, d)`. -/
def Value.getD (v : Value) (k : String) (d : Value) : Value :=
  (v.get? k).getD d

/-- `v[k] = x` on a dict (no-op on non-dicts, which cannot occur at use sites). -/
def Value.dictSet : Value → String → Value → Value
  | .dict l, k, x => .dict (assocSet l k x)
  | v, _, _ => v

/-- Python `str.strip()`: drop whitespace from both ends. (A structural
re-implementation of `String.trim`, so that concrete runs reduce in the
kernel.) -/
def String.pyStrip (s : String) : String :=
  String.mk (((s.toList.dropWhile Char.isWhitespace).reverse.dropWhile
    Char.isWhitespace).reverse)

/-- Python `str.lower()` (ASCII range, which covers every string this
program compares). Structural re-implementation of `String.toLower`. -/
def String.pyLower (s : String) : String :=
  String.mk (s.toList.map Char.toLower)

/-- Split a character list at whitespace. -/
def splitWsAux : List Char → List Char → List (List Char)
  | [], acc => [acc.reverse]
  | c :: t, acc =>
    if Char.isWhitespace c then acc.reverse :: splitWsAux t [] else splitWsAux t (c :: acc)

/-- Python `str.split()` with no argument: split on whitespace runs,
dropping empty pieces. -/
def pyWords (s : String) : List String :=
  ((splitWsAux s.toList []).filter (fun w => w ≠ [])).map String.mk

/-- Whether `needle` occurs as a contiguous sublist of `hay`. -/
def listContains (needle : List Char) : List Char → Bool
  | [] => needle.isEmpty
  | c :: t => needle.isPrefixOf (c :: t) || listContains needle t

/-- Python `needle in hay` for strings. -/
def pyIn (needle hay : String) : Bool :=
  if needle = "" then true else listContains needle.toList hay.toList

/-- Python `a or b` for strings (empty string is falsy). -/
def pyOrStr (a b : String) : String := if a = "" then b else a

/-- Python `os.path.basename` (POSIX): the part after the last `/`. -/
def pyBasename (s : String) : String :=
  String.mk ((s.toList.reverse.takeWhile (fun c => c ≠ '/')).reverse)

/-- The root part of Python `os.path.splitext`: drop the extension after the
last dot, unless every character before that dot is itself a dot. -/
def splitextRoot (s : String) : String :=
  let cs := s.toList
  let dotIdxs := (List.range cs.length).filter (fun i => cs.getD i ' ' = '.')
  match dotIdxs.getLast? with
  | none => s
  | some i => if (cs.take i).all (fun c => c = '.') then s else String.mk (cs.take i)

/-!  The parsed-document model: the attributes of one fetched page that the
embedded analyzers read from the BeautifulSoup tree. -/

/-- One `<img>` tag's attributes as read by `image_checker.py`. -/
structure Img where
  alt : Option String
  src : Option String
  dataSrc : Option String
  srcset : Option String

/-- The parsed page: tag texts and attributes read by the embedded analyzers.
`title`, `h1` hold raw `get_text()` (stripping happens in the checkers, as in
the source); `metaDescription`, `metaAuthor`, `ogAuthor`, `bylAuthor` hold the
`content` attribute of the respective meta tag when the tag is present with
that attribute; `headingLevels` lists the numeric levels of all `h1`..`h6`
tags in document order. -/
structure Doc where
  title : Option String
  metaDescription : Option String
  metaAuthor : Option String
  ogAuthor : Option String
  bylAuthor : Option String
  h1 : Option String
  headingLevels : List Nat
  imgs : List Img

/-- Python `message`-concatenation used by the keyword branch of
`title_meta_checker.py`: `get('message','') + (" " if get('message') else '') + kmsg`. -/
def kwAppend (prev : Option String) (kmsg : String) : String :=
  (prev.getD "") ++ (if (prev.getD "") ≠ "" then " " else "") ++ kmsg

/-- The status/message pair for the title or meta-description entry of
`check_title_and_meta`: start at `ok`, demote to `warning` with a message
when the stripped text length falls outside `[lo, hi]`, then demote to
`warning` (extending the message) when a truthy keyword does not occur
case-insensitively in the text. -/
def entryStatus (text : String) (lo hi : Nat) (lenMsg place : String)
    (kwT : Option String) : String × Option String :=
  let p1 : String × Option String :=
    if text.length < lo ∨ text.length > hi then ("warning", some lenMsg) else ("ok", none)
  match kwT with
  | some k =>
    if pyIn k.pyLower text.pyLower then p1
    else ("warning", some (kwAppend p1.2 ("Keyword \"" ++ k ++ "\" not found in " ++ place ++ ".")))
  | none => p1

/-- `if keyword:` — the keyword argument when it is truthy. -/
def kwTruthy (keyword : Option String) : Option String :=
  match keyword with
  | some k => if k = "" then none else some k
  | none => none

/-- Embeds `title_meta_checker.check_title_and_meta`. -/
def check_title_and_meta (doc : Doc) (keyword : Option String) : Value :=
  let kwT : Option String := kwTruthy keyword
  let titleE : Value :=
    match doc.title with
    | none => .dict [("found", .bool false), ("content", .null), ("status", .str "missing")]
    | some t0 =>
      let t := t0.pyStrip
      let p2 := entryStatus t 50 60 "Title length should be in the 50–60 character range."
        "title" kwT
      .dict ([("found", .bool true), ("content", .str t), ("status", .str p2.1)] ++
        (match p2.2 with | some m => [("message", .str m)] | none => []))
  let metaE : Value :=
    match doc.metaDescription with
    | none => .dict [("found", .bool false), ("content", .null), ("status", .str "missing")]
    | some m0 =>
      let m := m0.pyStrip
      let p2 := entryStatus m 120 155
        "Meta description length should be in the 120–155 character range."
        "meta description" kwT
      .dict ([("found", .bool true), ("content", .str m), ("status", .str p2.1)] ++
        (match p2.2 with | some m' => [("message", .str m')] | none => []))
  -- author: meta[name=author], else meta[property=article:author], else meta[name=byl]
  let authorContent : Option String :=
    match doc.metaAuthor with
    | some a => some a.pyStrip
    | none =>
      match doc.ogAuthor with
      | some a => some a.pyStrip
      | none => doc.bylAuthor.map String.pyStrip
  -- `if author_content:` truthiness
  let authorE : Value :=
    match authorContent with
    | some a =>
      if a ≠ "" then .dict [("found", .bool true), ("content", .str a), ("status", .str "ok")]
      else .dict [("found", .bool false), ("content", .null), ("status", .str "fail")]
    | none => .dict [("found", .bool false), ("content", .null), ("status", .str "fail")]
  .dict [("title", titleE), ("meta_description", metaE), ("author", authorE)]

/-- The heading-hierarchy scan of `headings_checker.py`: walking the levels
with `current_level`, report a warning on the first jump by more than one
level from a nonzero current level. -/
def hierWarnAux : Nat → List Nat → Bool
  | _, [] => false
  | cur, l :: ls => if l > cur + 1 ∧ cur ≠ 0 then true else hierWarnAux l ls

/-- Embeds `headings_checker.check_headings`. -/
def check_headings (doc : Doc) : Value :=
  let h1s : String := match doc.h1 with | some _ => "found" | none => "missing"
  let h1c : Value := match doc.h1 with | some t => .str t.pyStrip | none => .null
  -- hierarchy starts 'ok', becomes 'error' when the h1 is missing, and the
  -- level scan may overwrite it with 'warning'
  let baseHier : String := match doc.h1 with | some _ => "ok" | none => "error"
  let warn := hierWarnAux 0 doc.headingLevels
  let hier := if warn then "warning" else baseHier
  .dict ([("h1_status", .str h1s), ("h1_content", h1c), ("h_hierarchy", .str hier),
          ("h_tags_found", .list (doc.headingLevels.map (fun n => Value.num n)))] ++
    (if warn then
      [("h_hierarchy_message",
        .str "Heading levels are not in a strict hierarchical order. (e.g., jumping from h2 to h4).")]
     else []))

/-- `alt_text`: the stripped alt attribute (bs4 gives a string or `None`). -/
def imgAltText (i : Img) : Option String := i.alt.map String.pyStrip

/-- `if not alt_text:` — the image counts as missing alternative text. -/
def imgMissing (i : Img) : Bool :=
  match imgAltText i with
  | none => true
  | some s => s = ""

/-- `img.get('src') or img.get('data-src') or img.get('srcset') or ''`. -/
def imgSrcVal (i : Img) : String :=
  pyOrStr (i.src.getD "") (pyOrStr (i.dataSrc.getD "") (i.srcset.getD ""))

/-- `[_-]?\d+`: an optional single `_` or `-`, then one or more digits. -/
def sepDigits (r : List Char) : Bool :=
  match r with
  | [] => false
  | c :: rest =>
    if c = '_' ∨ c = '-' then (rest ≠ [] ∧ rest.all Char.isDigit : Bool)
    else ((c :: rest).all Char.isDigit : Bool)

/-- One alternative of the default-camera-name pattern, e.g. `img[_-]?\d+`. -/
def matchDefaultOne (p : String) (l : List Char) : Bool :=
  let pc := p.toList
  if l.take pc.length = pc then sepDigits (l.drop pc.length) else false

/-- The `default_name_re` regex of `image_checker.py`
(`^(img[_-]?\d+|dsc[_-]?\d+|image[_-]?\d+|photo[_-]?\d+)$`, case-insensitive). -/
def defaultNameMatch (b : String) : Bool :=
  let l := b.pyLower.toList
  matchDefaultOne "img" l || matchDefaultOne "dsc" l ||
  matchDefaultOne "image" l || matchDefaultOne "photo" l

/-- The poor-alt heuristic of `image_checker.py`, evaluated on images whose
alt text is present: fewer than 3 words, or the alt equals the filename base
(case-insensitively), or the base looks like a default camera name. -/
def imgPoor (i : Img) : Bool :=
  let alt := (imgAltText i).getD ""
  let src := i.src.getD ""
  let base := splitextRoot (pyBasename (String.mk (src.toList.takeWhile (fun c => c ≠ '?'))))
  if (pyWords alt).length < 3 then true
  else if base ≠ "" ∧ (alt.pyLower = base.pyLower ∨ defaultNameMatch base = true) then true
  else false

/-- `poor.append(src or alt_text)`. -/
def imgPoorVal (i : Img) : String :=
  pyOrStr (i.src.getD "") ((imgAltText i).getD "")

/-- The `missing` list built by `check_images`' per-image loop: one source
value per image whose alternative text is missing, in document order. -/
def missingList (doc : Doc) : List String := (doc.imgs.filter imgMissing).map imgSrcVal

/-- The `poor` list built by `check_images`' per-image loop. -/
def poorList (doc : Doc) : List String :=
  (doc.imgs.filter (fun i => !imgMissing i && imgPoor i)).map imgPoorVal

/-- The number of images on the page whose alternative text is missing. -/
def countMissingAlt (doc : Doc) : Nat := (doc.imgs.filter imgMissing).length

/-- The number of images on the page with present but weak alternative text. -/
def countPoorAlt (doc : Doc) : Nat :=
  (doc.imgs.filter (fun i => !imgMissing i && imgPoor i)).length

/-- The status computed by `check_images`: pass when there are images and no
findings, warning when there are images with findings, fail when no images. -/
def imagesStatus (images : List Img) (missing poor : List String) : String :=
  if !images.isEmpty && missing.isEmpty && poor.isEmpty then "pass"
  else if !images.isEmpty then "warning" else "fail"

/-- Embeds `image_checker.check_images`. The per-image loop appends to
`missing` or `poor`, which equals filtering and mapping in document order;
both lists are capped at 50 entries in the returned payload while the
message counts use the uncapped lists, as in the source. -/
def check_images (doc : Doc) : Value :=
  let images := doc.imgs
  let missing : List String := missingList doc
  let poor : List String := poorList doc
  let status : String := imagesStatus images missing poor
  let message : String :=
    if !images.isEmpty && missing.isEmpty && poor.isEmpty then
      "All " ++ toString images.length ++ " images have descriptive alt text."
    else if images.isEmpty then "No images found."
    else if !missing.isEmpty then toString missing.length ++ " image(s) missing alt."
    else toString poor.length ++ " image(s) with weak alt."
  .dict [("total_images", .num images.length),
         ("missing_alt", .list ((missing.take 50).map Value.str)),
         ("poor_alt", .list ((poor.take 50).map Value.str)),
         ("status", .str status),
         ("message", .str message)]

/-!  Pipeline executor: `run_all_checks` runs the ten analyzers in a fixed
order, wrapping each call in `_spin_step`, which converts a raised exception
into an error result. An analyzer invocation's outcome is either a returned
payload (`Except.ok`) or a raised exception message (`Except.error`). -/

/-- The configured analyzer slots, in the order `run_all_checks` fills them. -/
inductive CheckName where
  | titleMeta | headings | schema | mobileResponsiveness | robotsSitemaps
  | internalLinks | images | canonicalHreflang | indexability | faq

/-- The result-mapping key of each analyzer. -/
def nameStr : CheckName → String
  | .titleMeta => "title_meta"
  | .headings => "headings"
  | .schema => "schema"
  | .mobileResponsiveness => "mobile_responsiveness"
  | .robotsSitemaps => "robots_sitemaps"
  | .internalLinks => "internal_links"
  | .images => "images"
  | .canonicalHreflang => "canonical_hreflang"
  | .indexability => "indexability"
  | .faq => "faq"

/-- The `_spin_step` label of each analyzer (used in its error message). -/
def labelStr : CheckName → String
  | .titleMeta => "Title & Meta"
  | .headings => "Headings"
  | .schema => "Schema"
  | .mobileResponsiveness => "Mobile"
  | .robotsSitemaps => "Robots & Sitemaps"
  | .internalLinks => "Internal Links"
  | .images => "Images"
  | .canonicalHreflang => "Canonical & Hreflang"
  | .indexability => "Indexability"
  | .faq => "FAQ"

/-- The outcomes of the ten analyzer invocations within one audit:
each either returns a payload or raises (with a message). -/
structure Outcomes where
  title_meta : Except String Value
  headings : Except String Value
  schema : Except String Value
  mobile_responsiveness : Except String Value
  robots_sitemaps : Except String Value
  internal_links : Except String Value
  images : Except String Value
  canonical_hreflang : Except String Value
  indexability : Except String Value
  faq : Except String Value

/-- Project the outcome of one analyzer. -/
def outcomeOf (o : Outcomes) : CheckName → Except String Value
  | .titleMeta => o.title_meta
  | .headings => o.headings
  | .schema => o.schema
  | .mobileResponsiveness => o.mobile_responsiveness
  | .robotsSitemaps => o.robots_sitemaps
  | .internalLinks => o.internal_links
  | .images => o.images
  | .canonicalHreflang => o.canonical_hreflang
  | .indexability => o.indexability
  | .faq => o.faq

/-- Embeds `_spin_step`: a raised exception becomes
`{status: error, message: "<label> error: <cause>"}`. -/
def spinStep (label : String) (r : Except String Value) : Value :=
  match r with
  | .ok v => v
  | .error e => .dict [("status", .str "error"), ("message", .str (label ++ " error: " ++ e))]

/-- The result mapping built by `run_all_checks` right after the ten wrapped
analyzer calls (dict insertion order = call order). -/
def pipelineList (o : Outcomes) : List (String × Value) :=
  [("title_meta", spinStep "Title & Meta" o.title_meta),
   ("headings", spinStep "Headings" o.headings),
   ("schema", spinStep "Schema" o.schema),
   ("mobile_responsiveness", spinStep "Mobile" o.mobile_responsiveness),
   ("robots_sitemaps", spinStep "Robots & Sitemaps" o.robots_sitemaps),
   ("internal_links", spinStep "Internal Links" o.internal_links),
   ("images", spinStep "Images" o.images),
   ("canonical_hreflang", spinStep "Canonical & Hreflang" o.canonical_hreflang),
   ("indexability", spinStep "Indexability" o.indexability),
   ("faq", spinStep "FAQ" o.faq)]

/-- The configured analyzer names, in pipeline order. -/
def checkNames : List String :=
  ["title_meta", "headings", "schema", "mobile_responsiveness", "robots_sitemaps",
   "internal_links", "images", "canonical_hreflang", "indexability", "faq"]

/-!  Cross-check rule: `_author_match` compares the declared author meta
content against the schema author list and may revise the author result. -/

/-- `(results.get('title_meta', {}).get('author', {}) or {}).get('content')`. -/
def tmAuthorVal (results : Value) : Option Value :=
  let tm := results.getD "title_meta" (.dict [])
  let au0 := tm.getD "author" (.dict [])
  let au := if au0.truthy then au0 else .dict []
  au.get? "content"

/-- `[a.strip() for a in (results.get('schema', {}).get('authors') or []) if isinstance(a, str)]`.
A (truthy) string value iterates its characters, each a one-character string. -/
def scAuthorsOf (results : Value) : List String :=
  match (results.getD "schema" (.dict [])).get? "authors" with
  | some (.list xs) => xs.filterMap (fun x => match x with | .str s => some s.pyStrip | _ => none)
  | some (.str s) => if s = "" then [] else s.toList.map (fun c => c.toString.pyStrip)
  | _ => []

/-- The two in-place assignments of `_author_match`: set the author result's
`status` and `message` (the latter is a fresh key, appended at the end). -/
def setAuthorFields (results : Value) (st m : String) : Value :=
  let tm := results.getD "title_meta" (.dict [])
  let au := tm.getD "author" (.dict [])
  results.dictSet "title_meta"
    (tm.dictSet "author" ((au.dictSet "status" (.str st)).dictSet "message" (.str m)))

/-- Embeds the `_author_match` cross-check of `run_all_checks`. A non-string
truthy author content would raise at `.lower()`; `_spin_step` swallows that
before any assignment, leaving the results unchanged. -/
def authorMatch (results : Value) : Value :=
  match tmAuthorVal results with
  | some (.str ta) =>
    if ta ≠ "" ∧ scAuthorsOf results ≠ [] then
      if (scAuthorsOf results).any (fun a => ta.pyLower = a.pyLower) then
        setAuthorFields results "ok" "Author matches schema."
      else
        setAuthorFields results "warning" "Author meta does not match schema author(s)."
    else results
  | some _ => results
  | none => results

/-- The error-only result returned when the fetch fails. -/
def errDictVal : Value :=
  .dict [("error", .str "Failed to access the URL. Consider setting SCRAPERAPI_KEY for tougher sites.")]

/-- `run_all_checks`: a failed fetch aborts the audit with an error-only
result; otherwise the ten wrapped analyzer calls run in order and the
author cross-check revises the mapping. -/
def runAllChecks (fetched : Option String) (o : Outcomes) : Value :=
  match fetched with
  | none => errDictVal
  | some _ => authorMatch (.dict (pipelineList o))

/-!  Score aggregator: `compute_score` and the per-section percentages. -/

/-- Python `str(v)` as far as statuses are concerned (statuses reachable in
this program are strings or `None`). -/
def pyStr : Value → String
  | .str s => s
  | .bool b => if b then "True" else "False"
  | .null => "None"
  | .num q => toString q
  | .list _ => "[list]"
  | .dict _ => "[dict]"

/-- `_points_from_status`: pass/ok/found earn 1 point, warning half a point. -/
def pointsFromStatus (v : Value) : Rat :=
  if v.truthy = false then 0
  else
    let s := (pyStr v).pyLower
    if s = "pass" ∨ s = "ok" ∨ s = "found" then 1
    else if s = "warning" then 1/2
    else 0

/-- The `_status_to_percent` helper used for section scores. -/
def statusToPercent (v : Value) : Rat :=
  if v.truthy = false then 0
  else
    let s := (pyStr v).pyLower
    if s = "pass" ∨ s = "ok" ∨ s = "found" then 100
    else if s = "warning" then 50
    else 0

/-- Python `round(x, n)` on exact rationals: round half to even. (Reachable
overall scores are multiples of 1/2 and reachable percents have denominator
14, so no reachable value is a tie and the tie-breaking rule never fires.) -/
def pyRound (n : Nat) (x : Rat) : Rat :=
  let m : Rat := x * ((10 : Rat) ^ n)
  let f : Int := m.floor
  let fr : Rat := m - (f : Rat)
  let r : Int :=
    if fr < 1/2 then f
    else if fr > 1/2 then f + 1
    else if f % 2 = 0 then f else f + 1
  (r : Rat) / ((10 : Rat) ^ n)

/-- The summary dict produced by `compute_score`. -/
structure ScoreSummary where
  score : Rat
  max : Rat
  percent : Rat
  threshold : Rat
  result : String

/-- The accumulated `score` of `compute_score` (`seo_checker.py`). Weights:
title/meta 3, headings 2, schema 1, mobile 1, indexability 1, robots 1,
sitemaps 1, internal links 1, images 1, canonical+hreflang 2; total max 14. -/
def rawScoreOf (ar : Value) : Rat :=
  let eD : Value := .dict []
  let tm := ar.getD "title_meta" eD
  let s1 := pointsFromStatus ((tm.getD "title" eD).getD "status" .null)
          + pointsFromStatus ((tm.getD "meta_description" eD).getD "status" .null)
          + pointsFromStatus ((tm.getD "author" eD).getD "status" .null)
  let hd := ar.getD "headings" eD
  let s2 := s1 + pointsFromStatus (hd.getD "h1_status" .null)
          + pointsFromStatus (hd.getD "h_hierarchy" .null)
  let sc := ar.getD "schema" eD
  let s3 := s2 + (if (sc.getD "schema_found" .null).truthy then 1 else 0)
  let mb := ar.getD "mobile_responsiveness" eD
  let s4 := s3 + pointsFromStatus (mb.getD "status" .null)
  let ix := ar.getD "indexability" eD
  let s5 := s4 + pointsFromStatus (ix.getD "status" .null)
  let rs := ar.getD "robots_sitemaps" eD
  let s6 := s5 + (if ((rs.getD "robots" eD).getD "present" .null).truthy then 1 else 0)
  let s7 := s6 + pointsFromStatus ((rs.getD "sitemaps" eD).getD "status" .null)
  let il := ar.getD "internal_links" eD
  let s8 := s7 + pointsFromStatus (il.getD "status" .null)
  let im := ar.getD "images" eD
  let s9 := s8 + pointsFromStatus (im.getD "status" .null)
  let ch := ar.getD "canonical_hreflang" eD
  let s10 := s9 + pointsFromStatus ((ch.getD "canonical" eD).getD "status" .null)
           + pointsFromStatus ((ch.getD "hreflang" eD).getD "status" .null)
  s10

/-- The fixed total weight of the rubric (`max_points` after all additions). -/
def maxPointsConst : Rat := 3 + 2 + 1 + 1 + 1 + 1 + 1 + 1 + 1 + 2

/-- The summary built by `compute_score`: the stored score is rounded to two
decimals, the stored percent to one decimal, while the PASS/FAIL verdict
compares the unrounded percent with the threshold, as in the source. -/
def computeScoreRaw (ar : Value) (threshold : Rat) : ScoreSummary :=
  let percentRaw : Rat :=
    if maxPointsConst = 0 then 0 else rawScoreOf ar / maxPointsConst * 100
  { score := pyRound 2 (rawScoreOf ar)
    max := maxPointsConst
    percent := pyRound 1 percentRaw
    threshold := threshold
    result := if percentRaw ≥ threshold then "PASS" else "FAIL" }

/-- The `_score_summary` dict stored into the results. -/
def scoreSummaryToValue (s : ScoreSummary) : Value :=
  .dict [("score", .num s.score), ("max", .num s.max), ("percent", .num s.percent),
         ("threshold", .num s.threshold), ("result", .str s.result)]

/-- `len(... or [])` for payload fields that hold lists. -/
def lenOrEmpty (v : Option Value) : Nat :=
  match v with
  | some (.list l) => l.length
  | some (.str s) => s.length
  | _ => 0

/-- `int(... or 0)` for payload fields that hold numbers. -/
def ratOr0 (v : Option Value) : Rat :=
  match v with
  | some (.num q) => q
  | _ => 0

/-- The images section percent (`section_scores['images']`, `seo_checker.py`):
ratio of present alt text, minus a penalty capped at 25 for weak alt text,
floored at 0; 0 when no images. Reads the (possibly truncated) payload lists. -/
def imagesSectionScoreOf (im : Value) : Rat :=
  let total : Rat := ratOr0 (im.get? "total_images")
  let missing : Nat := lenOrEmpty (im.get? "missing_alt")
  let poor : Nat := lenOrEmpty (im.get? "poor_alt")
  let basePct : Rat := if total > 0 then 100 * (1 - (missing : Rat) / total) else 0
  let penalty : Rat := if total > 0 then min 25 (100 * ((poor : Rat) / total)) else 0
  max 0 (basePct - penalty)

/-- The internal-links section percent (`section_scores['internal_links']`). -/
def linksSectionScoreOf (il : Value) : Rat :=
  let checkedRaw : Rat := ratOr0 (il.get? "checked")
  let checked : Rat := max 1 checkedRaw
  let broken : Nat := lenOrEmpty (il.get? "broken")
  if checkedRaw > 0 then max 0 (100 * (1 - (broken : Rat) / checked)) else 0

/-- The per-section percentages block of `seo_checker.py` (insertion order). -/
def sectionScoresOf (res : Value) : List (String × Rat) :=
  let eD : Value := .dict []
  let tm := res.getD "title_meta" eD
  let hd := res.getD "headings" eD
  let sc := res.getD "schema" eD
  let mb := res.getD "mobile_responsiveness" eD
  let rs := res.getD "robots_sitemaps" eD
  let il := res.getD "internal_links" eD
  let im := res.getD "images" eD
  let ix := res.getD "indexability" eD
  let ch := res.getD "canonical_hreflang" eD
  [("title_meta",
      (statusToPercent ((tm.getD "title" eD).getD "status" .null)
       + statusToPercent ((tm.getD "meta_description" eD).getD "status" .null)
       + statusToPercent ((tm.getD "author" eD).getD "status" .null)) / 3),
   ("headings",
      (statusToPercent (hd.getD "h1_status" .null)
       + statusToPercent (hd.getD "h_hierarchy" .null)) / 2),
   ("schema", if (sc.getD "schema_found" .null).truthy then 100 else 0),
   ("mobile", statusToPercent (mb.getD "status" .null)),
   ("robots", if ((rs.getD "robots" eD).getD "present" .null).truthy then 100 else 0),
   ("sitemaps", statusToPercent ((rs.getD "sitemaps" eD).getD "status" .null)),
   ("internal_links", linksSectionScoreOf il),
   ("images", imagesSectionScoreOf im),
   ("indexability", statusToPercent (ix.getD "status" .null)),
   ("canonical", statusToPercent ((ch.getD "canonical" eD).getD "status" .null)),
   ("hreflang", statusToPercent ((ch.getD "hreflang" eD).getD "status" .null))]

/-!  The per-URL driver loop, history append and exit code of the main block. -/

/-- One URL's audit inputs: the fetch outcome (`none` = fetch failed) and the
outcomes of the ten analyzer invocations (used only when the fetch succeeded). -/
structure UrlJob where
  url : String
  fetched : Option String
  outs : Outcomes

/-- Per-URL processing in the main loop: run the checks, attach
`_score_summary` and `_section_scores`, and wrap as `{url, results}`. -/
def processJob (threshold : Rat) (j : UrlJob) : Value :=
  let res0 := runAllChecks j.fetched j.outs
  let res1 := res0.dictSet "_score_summary" (scoreSummaryToValue (computeScoreRaw res0 threshold))
  let res2 := res1.dictSet "_section_scores"
    (.dict ((sectionScoresOf res1).map (fun p => (p.1, Value.num p.2))))
  .dict [("url", .str j.url), ("results", res2)]

/-- The batch `outputs` list. -/
def outputsOf (threshold : Rat) (jobs : List UrlJob) : List Value :=
  jobs.map (processJob threshold)

/-- One history entry derived from one output item. -/
def mkHistoryEntry (now : String) (item : Value) : Value :=
  let r := item.getD "results" (.dict [])
  .dict [("timestamp", .str now), ("url", item.getD "url" .null),
         ("score_summary", r.getD "_score_summary" (.dict [])),
         ("section_scores", r.getD "_section_scores" (.dict []))]

/-- The history entries appended at the end of the main block: one per output
item (every audited URL, fetch failures included), unless `--no-history`. -/
def historyEntriesOf (now : String) (outputs : List Value) (noHistory : Bool) : List Value :=
  if noHistory then [] else outputs.map (mkHistoryEntry now)

/-- `item['results'].get('error')` truthiness. -/
def hasFetchError (item : Value) : Bool :=
  ((item.getD "results" (.dict [])).getD "error" .null).truthy

/-- `item['results'].get('_score_summary', {}).get('percent', 0.0)`. -/
def percentOfOutput (item : Value) : Rat :=
  match ((item.getD "results" (.dict [])).getD "_score_summary" (.dict [])).getD "percent" (.num 0) with
  | .num q => q
  | _ => 0

/-- The process exit code of the main block: 2 if any URL failed to fetch,
else 1 if any output's stored percent is below the threshold, else 0. -/
def exitCodeOf (outputs : List Value) (threshold : Rat) : Nat :=
  if outputs.any hasFetchError then 2
  else if outputs.any (fun o => percentOfOutput o < threshold) then 1
  else 0

/-!  History store: `_append_history` / `_show_history`. A line of the history
file either is a record written by `json.dumps` (which `json.loads` parses
back to the same value — the standard-library contract) or is malformed
(`json.loads` raises, and the reader skips the line). -/

/-- One line of the newline-delimited history file. -/
inductive HLine where
  | record (v : Value)
  | malformed (s : String)

/-- `json.loads` on one line, `None`-free: a dumped record parses back to its
value, a malformed line fails to parse. -/
def jsonLoads? : HLine → Option Value
  | .record v => some v
  | .malformed _ => none

/-- `_append_history`: append one dumped line per entry, in order. -/
def appendHistory (file : List HLine) (entries : List Value) : List HLine :=
  file ++ entries.map HLine.record

/-- The Python slice `lines[-limit:]`: the last `limit` lines — except that
`limit = 0` yields the whole list (`lines[-0:] == lines[:]`). -/
def pyTakeLast (limit : Nat) (l : List HLine) : List HLine :=
  if limit = 0 then l else l.drop (l.length - limit)

/-- `_show_history`'s parsed items: the last `limit` lines, each parsed with
`json.loads`, skipping lines that fail to parse. -/
def showHistoryItems (file : List HLine) (limit : Nat) : List Value :=
  (pyTakeLast limit file).filterMap jsonLoads?

/-!  Claims. -/

/-- Claim C1: in the analyzer pipeline over one fetched document, a fault
raised inside any single analyzer is caught at the `_spin_step` boundary and
replaced by `{status: error, message: "<name> error: <cause>"}`; every entry
of the result mapping depends only on its own analyzer's outcome (so no other
analyzer's result — in particular its status — changes when one analyzer
faults), and the mapping has exactly one entry per configured analyzer, in
order, regardless of which analyzers faulted. -/
theorem pipeline_fault_isolation (o o' : Outcomes) :
    ((pipelineList o).map Prod.fst = checkNames) ∧
    (∀ (c : CheckName) (e : String), outcomeOf o c = .error e →
      assocGet (pipelineList o) (nameStr c) =
        some (Value.dict [("status", .str "error"),
                          ("message", .str (labelStr c ++ " error: " ++ e))])) ∧
    (∀ c : CheckName, outcomeOf o c = outcomeOf o' c →
      assocGet (pipelineList o) (nameStr c) = assocGet (pipelineList o') (nameStr c)) := by
  refine ⟨rfl, ?_, ?_⟩
  · intro c e h
    cases c <;> simp only [outcomeOf] at h <;>
      simp [pipelineList, nameStr, labelStr, assocGet, spinStep, h]
  · intro c h
    cases c <;> simp only [outcomeOf] at h <;>
      simp [pipelineList, nameStr, assocGet, spinStep, h]

/-- A batch of outcomes where every analyzer raised. -/
def outsAllErr : Outcomes :=
  ⟨.error "boom", .error "boom", .error "boom", .error "boom", .error "boom",
   .error "boom", .error "boom", .error "boom", .error "boom", .error "boom"⟩

/-- Like `outsAllErr` but the FAQ analyzer returned normally. -/
def outsOneOk : Outcomes := { outsAllErr with faq := .ok (.dict []) }

/-- Witness for C1 at concrete outcomes: the faulting title/meta analyzer is
replaced by the labelled error result, and the headings entry is unchanged
between two batches that differ only in another analyzer's outcome. -/
theorem pipeline_fault_isolation_witness :
    assocGet (pipelineList outsAllErr) "title_meta" =
      some (Value.dict [("status", .str "error"),
                        ("message", .str "Title & Meta error: boom")]) ∧
    assocGet (pipelineList outsAllErr) "headings" =
      assocGet (pipelineList outsOneOk) "headings" :=
  ⟨(pipeline_fault_isolation outsAllErr outsOneOk).2.1 .titleMeta "boom" rfl,
   (pipeline_fault_isolation outsAllErr outsOneOk).2.2 .headings rfl⟩

/-- Claim C6: the exit code is 2 iff some URL failed to fetch; when no URL
failed to fetch, it is 1 iff some audited URL's stored percent is below the
threshold and 0 iff every audited URL's stored percent reaches the threshold. -/
theorem exit_code_spec (outputs : List Value) (threshold : Rat) :
    (exitCodeOf outputs threshold = 2 ↔ ∃ o ∈ outputs, hasFetchError o = true) ∧
    ((∀ o ∈ outputs, hasFetchError o = false) →
      ((exitCodeOf outputs threshold = 1 ↔ ∃ o ∈ outputs, percentOfOutput o < threshold) ∧
       (exitCodeOf outputs threshold = 0 ↔ ∀ o ∈ outputs, threshold ≤ percentOfOutput o))) := by
  rcases Bool.eq_false_or_eq_true (outputs.any hasFetchError) with hE | hE
  · -- some URL failed to fetch: exit code 2
    have hcode : exitCodeOf outputs threshold = 2 := by
      unfold exitCodeOf
      simp [hE]
    refine ⟨by rw [hcode]; exact ⟨fun _ => List.any_eq_true.mp hE, fun _ => rfl⟩, ?_⟩
    intro hAll
    obtain ⟨o, ho, hF⟩ := List.any_eq_true.mp hE
    exact absurd hF (by simp [hAll o ho])
  · -- no fetch error
    have hcode : exitCodeOf outputs threshold =
        (if (outputs.any fun o => percentOfOutput o < threshold) = true then 1 else 0) := by
      unfold exitCodeOf
      simp [hE]
    have hnoerr : ∀ o ∈ outputs, ¬(hasFetchError o = true) := by
      rw [List.any_eq_false] at hE
      exact hE
    constructor
    · rw [hcode]
      constructor
      · intro h; split at h <;> simp at h
      · rintro ⟨o, ho, hF⟩; exact absurd hF (hnoerr o ho)
    · intro _
      rcases Bool.eq_false_or_eq_true (outputs.any fun o => percentOfOutput o < threshold) with hB | hB
      · obtain ⟨o, ho, hlt⟩ := List.any_eq_true.mp hB
        have hlt : percentOfOutput o < threshold := by simpa using hlt
        rw [hcode, if_pos hB]
        constructor
        · exact ⟨fun _ => ⟨o, ho, hlt⟩, fun _ => rfl⟩
        · constructor
          · intro h; exact absurd h one_ne_zero
          · intro hall; exact absurd (hall o ho) (not_le.mpr hlt)
      · have hall : ∀ o ∈ outputs, ¬(percentOfOutput o < threshold) := by
          rw [List.any_eq_false] at hB
          intro o ho
          simpa using hB o ho
        rw [hcode, if_neg (by simp [hB])]
        constructor
        · constructor
          · intro h; exact absurd h (by decide)
          · rintro ⟨o, ho, hlt⟩; exact absurd hlt (hall o ho)
        · exact ⟨fun _ o ho => not_lt.mp (hall o ho), fun _ => rfl⟩

/-- A job whose fetch succeeded (all analyzers fault, so every section scores 0). -/
def jobOk : UrlJob := ⟨"https://ok.example", some "<html></html>", outsAllErr⟩

/-- Witness for C6 at a concrete batch: one fetched URL scoring 0 percent
against an 80 percent threshold exits with code 1. -/
theorem exit_code_spec_witness : exitCodeOf (outputsOf 80 [jobOk]) 80 = 1 := by
  have hp : percentOfOutput (processJob 80 jobOk) = 0 := by with_unfolding_all rfl
  have hmem : processJob 80 jobOk ∈ outputsOf 80 [jobOk] := List.mem_singleton.mpr rfl
  refine ((exit_code_spec (outputsOf 80 [jobOk]) 80).2 ?_).1.mpr ⟨processJob 80 jobOk, hmem, ?_⟩
  · intro o ho
    rw [List.mem_singleton.mp ho]
    rfl
  · rw [hp]; norm_num

/-- Three concrete well-formed history entries. -/
def histE1 : Value := .dict [("timestamp", .str "2026-01-01T00:00:00Z"), ("url", .str "https://a.example")]

/-- Second concrete history entry. -/
def histE2 : Value := .dict [("timestamp", .str "2026-01-02T00:00:00Z"), ("url", .str "https://b.example")]

/-- Third concrete history entry. -/
def histE3 : Value := .dict [("timestamp", .str "2026-01-03T00:00:00Z"), ("url", .str "https://c.example")]

/-- Counterexample to claim C8 as stated: with N = 3 appended entries and
K = 0 ≤ N, reading the last K entries should return the 0 most recent
entries, i.e. the empty list — but `lines[-0:]` is the whole file, so all
3 entries come back. -/
theorem history_zero_limit_cex :
    showHistoryItems (appendHistory [] [histE1, histE2, histE3]) 0 = [histE1, histE2, histE3] ∧
    (showHistoryItems (appendHistory [] [histE1, histE2, histE3]) 0).length ≠ 0 :=
  ⟨rfl, by decide⟩

/-- Reading back dumped records parses each one to its original value. -/
theorem history_filterMap_record (l : List Value) :
    (l.map HLine.record).filterMap jsonLoads? = l := by
  rw [List.filterMap_map]
  have h : (jsonLoads? ∘ HLine.record) = some := rfl
  rw [h, List.filterMap_some]

/-- Claim C8 (amended: the requested count K must be at least 1, since the
Python slice `lines[-0:]` returns the whole file for K = 0): appending N
well-formed entries to any prior history file and reading the last K entries,
1 ≤ K ≤ N, returns exactly the K most recently appended entries in their
original append order; and a malformed trailing line is skipped rather than
failing the read. -/
theorem history_tail_read (prior : List HLine) (entries : List Value) (K : Nat)
    (h1 : 1 ≤ K) (h2 : K ≤ entries.length) :
    showHistoryItems (appendHistory prior entries) K = entries.drop (entries.length - K) ∧
    (∀ s : String,
      showHistoryItems (appendHistory prior entries ++ [.malformed s]) (entries.length + 1)
        = entries) := by
  constructor
  · unfold showHistoryItems appendHistory pyTakeLast
    rw [if_neg (by omega), List.length_append, List.length_map]
    have harith : prior.length + entries.length - K = prior.length + (entries.length - K) := by
      omega
    rw [harith, List.drop_append, ← List.map_drop]
    exact history_filterMap_record _
  · intro s
    unfold showHistoryItems appendHistory pyTakeLast
    rw [if_neg (by omega), List.append_assoc]
    have hlen : (prior ++ (entries.map HLine.record ++ [HLine.malformed s])).length
        - (entries.length + 1) = prior.length := by
      simp [List.length_append, List.length_map]
    rw [hlen, List.drop_left, List.filterMap_append, history_filterMap_record]
    simp [jsonLoads?]

/-- Witness for C8 at concrete data: after a malformed line and three
entries, reading the last 2 returns the most recent 2 in append order. -/
theorem history_tail_read_witness :
    showHistoryItems (appendHistory [HLine.malformed "not json"] [histE1, histE2, histE3]) 2
      = [histE2, histE3] := by
  have h := (history_tail_read [HLine.malformed "not json"] [histE1, histE2, histE3] 2
    (by decide) (by decide)).1
  simpa using h

/-- The status vocabulary actually produced by the program. -/
def statusStrings : List String :=
  ["pass", "warning", "fail", "error", "ok", "found", "missing"]

/-- The given payload field holds a status string from the program's
status vocabulary. -/
def statusOk? (v : Option Value) : Prop :=
  ∃ s, v = some (Value.str s) ∧ s ∈ statusStrings

/-- The title/meta entry status is always `ok` or `warning`. -/
theorem entryStatus_fst_cases (text : String) (lo hi : Nat) (lenMsg place : String)
    (kwT : Option String) :
    (entryStatus text lo hi lenMsg place kwT).1 = "ok" ∨
    (entryStatus text lo hi lenMsg place kwT).1 = "warning" := by
  unfold entryStatus
  cases kwT with
  | none => dsimp only; split <;> simp
  | some k =>
    dsimp only
    split
    · split <;> simp
    · simp

/-- An empty page: no title, no metas, no headings, no images. -/
def docEmpty : Doc := ⟨none, none, none, none, none, none, [], []⟩

/-- The title entry's status of `check_title_and_meta` when a title is present. -/
theorem tm_title_status_eq (doc : Doc) (kw : Option String) (t0 : String)
    (h : doc.title = some t0) :
    ((check_title_and_meta doc kw).getD "title" (.dict [])).get? "status" =
      some (.str (entryStatus t0.pyStrip 50 60
        "Title length should be in the 50–60 character range." "title" (kwTruthy kw)).1) := by
  obtain ⟨t, m, a, og, byl, h1f, hl, imgs⟩ := doc
  cases h
  rfl

/-- The meta-description entry's status when a meta description is present. -/
theorem tm_meta_status_eq (doc : Doc) (kw : Option String) (m0 : String)
    (h : doc.metaDescription = some m0) :
    ((check_title_and_meta doc kw).getD "meta_description" (.dict [])).get? "status" =
      some (.str (entryStatus m0.pyStrip 120 155
        "Meta description length should be in the 120–155 character range."
        "meta description" (kwTruthy kw)).1) := by
  obtain ⟨t, m, a, og, byl, h1f, hl, imgs⟩ := doc
  cases h
  rfl

/-- The author entry's status is `ok` or `fail`. -/
theorem tm_author_status_cases (doc : Doc) (kw : Option String) :
    ((check_title_and_meta doc kw).getD "author" (.dict [])).get? "status"
        = some (.str "ok") ∨
    ((check_title_and_meta doc kw).getD "author" (.dict [])).get? "status"
        = some (.str "fail") := by
  obtain ⟨t, m, a, og, byl, h1f, hl, imgs⟩ := doc
  cases a with
  | some s =>
    by_cases hs : s.pyStrip ≠ ""
    · left
      dsimp only [check_title_and_meta, Option.map]
      rw [if_pos hs]
      rfl
    · right
      dsimp only [check_title_and_meta, Option.map]
      rw [if_neg hs]
      rfl
  | none =>
    cases og with
    | some s =>
      by_cases hs : s.pyStrip ≠ ""
      · left
        dsimp only [check_title_and_meta, Option.map]
        rw [if_pos hs]
        rfl
      · right
        dsimp only [check_title_and_meta, Option.map]
        rw [if_neg hs]
        rfl
    | none =>
      cases byl with
      | some s =>
        by_cases hs : s.pyStrip ≠ ""
        · left
          dsimp only [check_title_and_meta, Option.map]
          rw [if_pos hs]
          rfl
        · right
          dsimp only [check_title_and_meta, Option.map]
          rw [if_neg hs]
          rfl
      | none => right; rfl

/-- The h1 status of `check_headings` is `found` or `missing`. -/
theorem headings_h1_status_cases (doc : Doc) :
    (check_headings doc).get? "h1_status" = some (.str "found") ∨
    (check_headings doc).get? "h1_status" = some (.str "missing") := by
  obtain ⟨t, m, a, og, byl, h1f, hl, imgs⟩ := doc
  cases h1f with
  | some s => left; rfl
  | none => right; rfl

/-- The hierarchy status of `check_headings` as a function of the document. -/
theorem headings_hier_status_eq (doc : Doc) :
    (check_headings doc).get? "h_hierarchy" =
      some (.str (if hierWarnAux 0 doc.headingLevels then "warning"
                  else match doc.h1 with | some _ => "ok" | none => "error")) := by
  obtain ⟨t, m, a, og, byl, h1f, hl, imgs⟩ := doc
  cases hw : hierWarnAux 0 hl with
  | true => simp only [check_headings, hw]; rfl
  | false => simp only [check_headings, hw]; rfl

/-- The status of `check_images` as a function of the document. -/
theorem check_images_status_eq (doc : Doc) :
    (check_images doc).get? "status" =
      some (.str (imagesStatus doc.imgs (missingList doc) (poorList doc))) := rfl

/-- `imagesStatus` only takes the values pass, warning, fail. -/
theorem imagesStatus_cases (images : List Img) (missing poor : List String) :
    imagesStatus images missing poor = "pass" ∨
    imagesStatus images missing poor = "warning" ∨
    imagesStatus images missing poor = "fail" := by
  unfold imagesStatus
  split
  · left; rfl
  · split
    · right; left; rfl
    · right; right; rfl

/-- The title entry's status when the title tag is absent. -/
theorem tm_title_missing_eq (doc : Doc) (kw : Option String) (h : doc.title = none) :
    ((check_title_and_meta doc kw).getD "title" (.dict [])).get? "status"
      = some (.str "missing") := by
  obtain ⟨t, m, a, og, byl, h1f, hl, imgs⟩ := doc
  cases h
  rfl

/-- The meta-description entry's status when that meta tag is absent. -/
theorem tm_meta_missing_eq (doc : Doc) (kw : Option String) (h : doc.metaDescription = none) :
    ((check_title_and_meta doc kw).getD "meta_description" (.dict [])).get? "status"
      = some (.str "missing") := by
  obtain ⟨t, m, a, og, byl, h1f, hl, imgs⟩ := doc
  cases h
  rfl

/-- Claim C9 (amended: the headings analyzer is an exception — when the H1 is
missing it reports the hierarchy status as `error`, per its own comment "If
H1 is missing, hierarchy is broken"): absence of the checked feature yields
`fail` for images, `missing` for the title, and `missing` for the H1; the
hierarchy status of a document with no H1 is `error` (or `warning` when a
later level jump fires first), not a fail/warning value. -/
theorem absence_status_policy :
    (∀ doc : Doc, doc.imgs = [] → (check_images doc).get? "status" = some (Value.str "fail")) ∧
    (∀ (doc : Doc) (kw : Option String), doc.title = none →
      ((check_title_and_meta doc kw).getD "title" (.dict [])).get? "status"
        = some (Value.str "missing")) ∧
    (∀ doc : Doc, doc.h1 = none →
      (check_headings doc).get? "h1_status" = some (Value.str "missing") ∧
      ((check_headings doc).get? "h_hierarchy" = some (Value.str "error") ∨
       (check_headings doc).get? "h_hierarchy" = some (Value.str "warning"))) := by
  refine ⟨?_, ?_, ?_⟩
  · intro doc h
    rw [check_images_status_eq doc, h]
    rfl
  · intro doc kw h
    exact tm_title_missing_eq doc kw h
  · intro doc h
    constructor
    · obtain ⟨t, m, a, og, byl, h1f, hl, imgs⟩ := doc
      cases h1f with
      | none => rfl
      | some s => simp at h
    · rw [headings_hier_status_eq doc]
      cases hw : hierWarnAux 0 doc.headingLevels with
      | true => right; rfl
      | false => left; rw [h]; rfl

/-- Witness for C9 at the empty page: no images gives status `fail` and no
title gives status `missing` (both non-error). -/
theorem absence_status_policy_witness :
    (check_images docEmpty).get? "status" = some (Value.str "fail") ∧
    ((check_title_and_meta docEmpty none).getD "title" (.dict [])).get? "status"
      = some (Value.str "missing") :=
  ⟨absence_status_policy.1 docEmpty rfl, absence_status_policy.2.1 docEmpty none rfl⟩

/-- Counterexample to claim C9 as stated: a page with no H1 (feature absent)
is reported by the headings analyzer with hierarchy status `error`, which is
neither `fail` nor `warning`. -/
theorem absence_error_cex :
    docEmpty.h1 = none ∧
    (check_headings docEmpty).get? "h_hierarchy" = some (Value.str "error") ∧
    ¬("error" ∈ (["fail", "warning"] : List String)) :=
  ⟨rfl, rfl, by decide⟩

/-- A realistic audit: the three embedded analyzers return their results for
the empty page, the network-bound analyzers fault. -/
def outsRealistic : Outcomes :=
  { title_meta := .ok (check_title_and_meta docEmpty none)
    headings := .ok (check_headings docEmpty)
    schema := .error "boom"
    mobile_responsiveness := .error "network down"
    robots_sitemaps := .error "network down"
    internal_links := .error "network down"
    images := .ok (check_images docEmpty)
    canonical_hreflang := .error "boom"
    indexability := .error "network down"
    faq := .error "boom" }

/-- Counterexample to claim C3 as stated: a ResultMapping produced by a full
run (cross-check included) carries the title status `missing`, which is not
in {pass, warning, fail, error}. -/
theorem status_taxonomy_cex :
    (((runAllChecks (some "<html></html>") outsRealistic).getD "title_meta" (.dict [])).getD
        "title" (.dict [])).get? "status" = some (Value.str "missing") ∧
    ¬("missing" ∈ (["pass", "warning", "fail", "error"] : List String)) :=
  ⟨rfl, by decide⟩

/-- Claim C3 (amended: the status vocabulary is {pass, warning, fail, error,
ok, found, missing} — the source also uses `ok`, `found` and `missing` as
statuses): every status field produced by the embedded analyzers is a single
string drawn from that vocabulary, and a faulted analyzer's substituted
result always carries status `error`. -/
theorem status_taxonomy_extended (doc : Doc) (kw : Option String) :
    statusOk? (((check_title_and_meta doc kw).getD "title" (.dict [])).get? "status") ∧
    statusOk? (((check_title_and_meta doc kw).getD "meta_description" (.dict [])).get? "status") ∧
    statusOk? (((check_title_and_meta doc kw).getD "author" (.dict [])).get? "status") ∧
    statusOk? ((check_headings doc).get? "h1_status") ∧
    statusOk? ((check_headings doc).get? "h_hierarchy") ∧
    statusOk? ((check_images doc).get? "status") ∧
    (∀ label e : String, (spinStep label (.error e)).get? "status" = some (Value.str "error")) := by
  refine ⟨?_, ?_, ?_, ?_, ?_, ?_, fun label e => rfl⟩
  · cases ht : doc.title with
    | none => exact ⟨"missing", tm_title_missing_eq doc kw ht, by decide⟩
    | some t0 =>
      rcases entryStatus_fst_cases t0.pyStrip 50 60
          "Title length should be in the 50–60 character range." "title" (kwTruthy kw)
        with h | h
      · exact ⟨"ok", by rw [tm_title_status_eq doc kw t0 ht, h], by decide⟩
      · exact ⟨"warning", by rw [tm_title_status_eq doc kw t0 ht, h], by decide⟩
  · cases hm : doc.metaDescription with
    | none => exact ⟨"missing", tm_meta_missing_eq doc kw hm, by decide⟩
    | some m0 =>
      rcases entryStatus_fst_cases m0.pyStrip 120 155
          "Meta description length should be in the 120–155 character range."
          "meta description" (kwTruthy kw)
        with h | h
      · exact ⟨"ok", by rw [tm_meta_status_eq doc kw m0 hm, h], by decide⟩
      · exact ⟨"warning", by rw [tm_meta_status_eq doc kw m0 hm, h], by decide⟩
  · rcases tm_author_status_cases doc kw with h | h
    · exact ⟨"ok", h, by decide⟩
    · exact ⟨"fail", h, by decide⟩
  · rcases headings_h1_status_cases doc with h | h
    · exact ⟨"found", h, by decide⟩
    · exact ⟨"missing", h, by decide⟩
  · rw [headings_hier_status_eq doc]
    cases hw : hierWarnAux 0 doc.headingLevels with
    | true => exact ⟨"warning", rfl, by decide⟩
    | false =>
      cases hh : doc.h1 with
      | some s => exact ⟨"ok", rfl, by decide⟩
      | none => exact ⟨"error", rfl, by decide⟩
  · rcases imagesStatus_cases doc.imgs (missingList doc) (poorList doc) with h | h | h
    · exact ⟨"pass", by rw [check_images_status_eq doc, h], by decide⟩
    · exact ⟨"warning", by rw [check_images_status_eq doc, h], by decide⟩
    · exact ⟨"fail", by rw [check_images_status_eq doc, h], by decide⟩

/-- The stored `missing_alt` list length is the page's missing-alt count
capped at 50. -/
theorem check_images_missing_len (doc : Doc) :
    lenOrEmpty ((check_images doc).get? "missing_alt") = min 50 (countMissingAlt doc) := by
  show (((missingList doc).take 50).map Value.str).length = min 50 (countMissingAlt doc)
  rw [List.length_map, List.length_take]
  unfold missingList countMissingAlt
  rw [List.length_map]

/-- The stored `poor_alt` list length is the page's weak-alt count capped at 50. -/
theorem check_images_poor_len (doc : Doc) :
    lenOrEmpty ((check_images doc).get? "poor_alt") = min 50 (countPoorAlt doc) := by
  show (((poorList doc).take 50).map Value.str).length = min 50 (countPoorAlt doc)
  rw [List.length_map, List.length_take]
  unfold poorList countPoorAlt
  rw [List.length_map]

/-- The stored image total is the page's image count. -/
theorem check_images_total (doc : Doc) :
    ratOr0 ((check_images doc).get? "total_images") = (doc.imgs.length : Rat) := rfl

/-- An image with no alternative text. -/
def imgNoAlt : Img := ⟨none, some "x.jpg", none, none⟩

/-- An image with descriptive alternative text. -/
def imgGood : Img := ⟨some "a nice red car", some "car.jpg", none, none⟩

/-- An image with weak (one-word) alternative text. -/
def imgWeak : Img := ⟨some "logo", some "logo-big.jpg", none, none⟩

/-- A page with 4 images: 2 fine, 1 missing alt, 1 weak alt. -/
def doc4 : Doc := ⟨none, none, none, none, none, none, [], [imgGood, imgNoAlt, imgWeak, imgGood]⟩

/-- A page with 51 images all missing alternative text. -/
def doc51 : Doc := ⟨none, none, none, none, none, none, [], List.replicate 51 imgNoAlt⟩

/-- A page with 60 images all missing alternative text. -/
def doc60 : Doc := ⟨none, none, none, none, none, none, [], List.replicate 60 imgNoAlt⟩

/-- The images section percent computed by the code as a function of the
page's capped counts. -/
theorem images_section_eq (doc : Doc) :
    imagesSectionScoreOf (check_images doc) =
      (if 0 < doc.imgs.length then
        max 0 (100 * (1 - ((min 50 (countMissingAlt doc) : Nat) : Rat) / (doc.imgs.length : Rat))
          - min 25 (100 * (((min 50 (countPoorAlt doc) : Nat) : Rat) / (doc.imgs.length : Rat))))
       else 0) := by
  unfold imagesSectionScoreOf
  rw [check_images_total, check_images_missing_len, check_images_poor_len]
  dsimp only
  rcases Nat.eq_zero_or_pos doc.imgs.length with h0 | hpos
  · rw [h0]
    norm_num
  · have hq : (0 : Rat) < (doc.imgs.length : Rat) := by exact_mod_cast hpos
    rw [if_pos hq, if_pos hq, if_pos hpos]

/-- Counterexample to claim C4 as stated: on a page with 51 images all
missing alternative text, the claimed formula (true counts) gives 0, but the
code computes the percent from the stored list capped at 50 entries, giving
100·(1 − 50/51) ≠ 0. -/
theorem images_formula_cex :
    countMissingAlt doc51 = 51 ∧ countPoorAlt doc51 = 0 ∧ doc51.imgs.length = 51 ∧
    imagesSectionScoreOf (check_images doc51) ≠
      max 0 (100 * (1 - (51 : Rat) / 51) - min 25 (100 * ((0 : Rat) / 51))) := by
  refine ⟨by decide, by decide, by decide, ?_⟩
  rw [images_section_eq doc51]
  have h1 : countMissingAlt doc51 = 51 := by decide
  have h2 : countPoorAlt doc51 = 0 := by decide
  have h3 : doc51.imgs.length = 51 := by decide
  rw [h1, h2, h3]
  norm_num [min_def, max_def]

/-- Claim C4 (amended: the missing/weak counts entering the formula are the
stored list lengths, i.e. the page counts capped at 50 — see the truncation
in `image_checker.py`): for every page, the images section percent is
100·(1 − cappedMissing/total) minus a penalty min(25, 100·cappedPoor/total),
floored at 0, when total > 0, and 0 when total = 0; in particular a page with
4 images, 1 missing alt and 1 weak alt scores exactly 50. -/
theorem images_percent_formula :
    (∀ doc : Doc, imagesSectionScoreOf (check_images doc) =
      (if 0 < doc.imgs.length then
        max 0 (100 * (1 - ((min 50 (countMissingAlt doc) : Nat) : Rat) / (doc.imgs.length : Rat))
          - min 25 (100 * (((min 50 (countPoorAlt doc) : Nat) : Rat) / (doc.imgs.length : Rat))))
       else 0)) ∧
    imagesSectionScoreOf (check_images doc4) = 50 := by
  refine ⟨images_section_eq, ?_⟩
  rw [images_section_eq doc4]
  have h1 : countMissingAlt doc4 = 1 := by decide
  have h2 : countPoorAlt doc4 = 1 := by decide
  have h3 : doc4.imgs.length = 4 := by decide
  rw [h1, h2, h3]
  norm_num [min_def, max_def]

/-- Claim C10: the images analyzer truncates the stored `missing_alt` and
`poor_alt` lists to at most 50 entries, the section percent is computed from
those stored lengths, and on a page with 60 images all missing alternative
text the percent uses the count 50 — diverging from the true-count formula. -/
theorem images_truncation :
    (∀ doc : Doc,
      lenOrEmpty ((check_images doc).get? "missing_alt") = min 50 (countMissingAlt doc) ∧
      lenOrEmpty ((check_images doc).get? "poor_alt") = min 50 (countPoorAlt doc)) ∧
    countMissingAlt doc60 = 60 ∧
    imagesSectionScoreOf (check_images doc60) = 100 * (1 - (50 : Rat) / 60) ∧
    100 * (1 - (50 : Rat) / 60) ≠
      max 0 (100 * (1 - (60 : Rat) / 60) - min 25 (100 * ((0 : Rat) / 60))) := by
  refine ⟨fun doc => ⟨check_images_missing_len doc, check_images_poor_len doc⟩,
    by decide, ?_, by norm_num [min_def, max_def]⟩
  rw [images_section_eq doc60]
  have h1 : countMissingAlt doc60 = 60 := by decide
  have h2 : countPoorAlt doc60 = 0 := by decide
  have h3 : doc60.imgs.length = 60 := by decide
  rw [h1, h2, h3]
  norm_num [min_def, max_def]

/-- `Rat.floor` of a natural number. -/
theorem rat_floor_natCast (n : Nat) : ((n : Rat)).floor = (n : Int) := by
  unfold Rat.floor
  rw [if_pos]
  · exact congrArg Int.ofNat (by simp [Rat.num_natCast])
  · simp [Rat.den_natCast]

/-- Every status earns 0, 1/2 or 1 point. -/
theorem pointsFromStatus_cases (v : Value) :
    pointsFromStatus v = 0 ∨ pointsFromStatus v = 1/2 ∨ pointsFromStatus v = 1 := by
  unfold pointsFromStatus
  split
  · left; rfl
  · dsimp only
    split
    · right; right; rfl
    · split
      · right; left; rfl
      · left; rfl

/-- Every status point value is `k/2` for some `k ≤ 2`. -/
theorem pointsFromStatus_half (v : Value) :
    ∃ k : Nat, k ≤ 2 ∧ pointsFromStatus v = (k : Rat) / 2 := by
  rcases pointsFromStatus_cases v with h | h | h
  · exact ⟨0, by omega, by rw [h]; norm_num⟩
  · exact ⟨1, by omega, by rw [h]; norm_num⟩
  · exact ⟨2, by omega, by rw [h]; norm_num⟩

/-- A conditional whole point is `k/2` for some `k ≤ 2`. -/
theorem boolPoint_half (b : Bool) :
    ∃ k : Nat, k ≤ 2 ∧ (if b then (1 : Rat) else 0) = (k : Rat) / 2 := by
  cases b
  · exact ⟨0, by omega, by norm_num⟩
  · exact ⟨2, by omega, by norm_num⟩

/-- Adding two half-integer bounded values. -/
theorem half_add {x y : Rat} {a b : Nat}
    (hx : ∃ k : Nat, k ≤ a ∧ x = (k : Rat) / 2) (hy : ∃ k : Nat, k ≤ b ∧ y = (k : Rat) / 2) :
    ∃ k : Nat, k ≤ a + b ∧ x + y = (k : Rat) / 2 := by
  obtain ⟨k, hk, ex⟩ := hx
  obtain ⟨j, hj, ey⟩ := hy
  refine ⟨k + j, by omega, ?_⟩
  rw [ex, ey]
  push_cast
  ring

/-- The raw score is `k/2` with `k ≤ 28` (so `0 ≤ score ≤ 14`). -/
theorem rawScoreOf_half (ar : Value) :
    ∃ k : Nat, k ≤ 28 ∧ rawScoreOf ar = (k : Rat) / 2 := by
  unfold rawScoreOf
  dsimp only
  refine half_add (half_add (half_add (half_add (half_add (half_add (half_add (half_add
    (half_add (half_add (half_add (half_add (half_add
      (pointsFromStatus_half _) (pointsFromStatus_half _))
      (pointsFromStatus_half _)) (pointsFromStatus_half _)) (pointsFromStatus_half _))
      (boolPoint_half _)) (pointsFromStatus_half _)) (pointsFromStatus_half _))
      (boolPoint_half _)) (pointsFromStatus_half _)) (pointsFromStatus_half _))
      (pointsFromStatus_half _)) (pointsFromStatus_half _)) (pointsFromStatus_half _)

/-- Rounding a half-integer to two decimals is the identity. -/
theorem pyRound_two_half (k : Nat) : pyRound 2 ((k : Rat) / 2) = (k : Rat) / 2 := by
  unfold pyRound
  dsimp only
  have hm : ((k : Rat) / 2) * ((10 : Rat) ^ (2 : Nat)) = ((50 * k : Nat) : Rat) := by
    push_cast
    ring
  rw [hm, rat_floor_natCast]
  have hfr : ((50 * k : Nat) : Rat) - (((50 * k : Nat) : Int) : Rat) = 0 := by
    push_cast
    ring
  rw [hfr, if_pos (by norm_num)]
  push_cast
  field_simp
  ring

/-- Claim C2 (amended: the stored percent equals 100·score/max rounded to one
decimal, and the PASS/FAIL verdict compares the unrounded percent with the
threshold — the stored, rounded percent can land on the other side of the
threshold): every summary satisfies 0 ≤ score ≤ max, percent =
round₁(100·score/max), and result = PASS iff the unrounded 100·score/max is
at least the threshold (inclusive, so exact unrounded equality is PASS). -/
theorem score_summary_props (ar : Value) (threshold : Rat) :
    0 ≤ (computeScoreRaw ar threshold).score ∧
    (computeScoreRaw ar threshold).score ≤ (computeScoreRaw ar threshold).max ∧
    (computeScoreRaw ar threshold).percent =
      pyRound 1 (100 * (computeScoreRaw ar threshold).score / (computeScoreRaw ar threshold).max) ∧
    ((computeScoreRaw ar threshold).result = "PASS" ↔
      threshold ≤ 100 * (computeScoreRaw ar threshold).score / (computeScoreRaw ar threshold).max) := by
  obtain ⟨k, hk, he⟩ := rawScoreOf_half ar
  have hscore : (computeScoreRaw ar threshold).score = rawScoreOf ar := by
    show pyRound 2 (rawScoreOf ar) = rawScoreOf ar
    rw [he, pyRound_two_half]
  have hmax : (computeScoreRaw ar threshold).max = 14 := by
    show maxPointsConst = 14
    norm_num [maxPointsConst]
  have hpr : (if maxPointsConst = 0 then (0 : Rat) else rawScoreOf ar / maxPointsConst * 100)
      = rawScoreOf ar / 14 * 100 := by
    rw [if_neg (by norm_num [maxPointsConst])]
    norm_num [maxPointsConst]
  have hA : 100 * (computeScoreRaw ar threshold).score / (computeScoreRaw ar threshold).max
      = rawScoreOf ar / 14 * 100 := by
    rw [hscore, hmax]
    ring
  refine ⟨?_, ?_, ?_, ?_⟩
  · rw [hscore, he]
    positivity
  · rw [hscore, hmax, he]
    have hk' : (k : Rat) ≤ 28 := by exact_mod_cast hk
    linarith
  · show pyRound 1 (if maxPointsConst = 0 then (0 : Rat) else rawScoreOf ar / maxPointsConst * 100)
        = pyRound 1 (100 * (computeScoreRaw ar threshold).score / (computeScoreRaw ar threshold).max)
    rw [hpr, hA]
  · have hres : (computeScoreRaw ar threshold).result
        = (if rawScoreOf ar / 14 * 100 ≥ threshold then "PASS" else "FAIL") := by
      show (if (if maxPointsConst = 0 then (0 : Rat) else rawScoreOf ar / maxPointsConst * 100)
          ≥ threshold then "PASS" else "FAIL") = _
      rw [hpr]
    rw [hres, hA]
    by_cases h : rawScoreOf ar / 14 * 100 ≥ threshold
    · rw [if_pos h]
      exact ⟨fun _ => h, fun _ => rfl⟩
    · rw [if_neg h]
      constructor
      · intro hbad
        exact absurd hbad (by decide)
      · intro hth
        exact absurd hth h

/-- A plausible mobile-checker result with status warning. -/
def mobileWarn : Value :=
  .dict [("viewport_meta_tag", .dict [("found", .bool true), ("content", .str "width=device-width")]),
         ("status", .str "warning"),
         ("message", .str "Viewport tag found, but content is not a standard mobile configuration.")]

/-- A run where only the mobile analyzer returned (with a warning). -/
def outsOneWarning : Outcomes := { outsAllErr with mobile_responsiveness := .ok mobileWarn }

/-- The result mapping of that run. -/
def arC2 : Value := runAllChecks (some "<html></html>") outsOneWarning

/-- Counterexample to claim C2 as stated: with raw score 1/2 of 14 points the
unrounded percent is 25/7 ≈ 3.571, stored (rounded) percent 3.6 = 18/5. At
threshold 18/5 the stored percent equals the threshold, yet the result is
FAIL (the verdict uses the unrounded percent), and the stored percent is not
100·score/max. -/
theorem score_summary_cex :
    (computeScoreRaw arC2 (18/5)).score = 1/2 ∧
    (computeScoreRaw arC2 (18/5)).percent = 18/5 ∧
    (computeScoreRaw arC2 (18/5)).threshold = 18/5 ∧
    (computeScoreRaw arC2 (18/5)).result = "FAIL" ∧
    (computeScoreRaw arC2 (18/5)).percent ≠
      100 * (computeScoreRaw arC2 (18/5)).score / (computeScoreRaw arC2 (18/5)).max := by
  have hs : (computeScoreRaw arC2 (18/5)).score = 1/2 := by with_unfolding_all rfl
  have hp : (computeScoreRaw arC2 (18/5)).percent = 18/5 := by with_unfolding_all rfl
  have hr : (computeScoreRaw arC2 (18/5)).result = "FAIL" := by with_unfolding_all rfl
  have hm : (computeScoreRaw arC2 (18/5)).max = 14 := by
    show maxPointsConst = 14
    norm_num [maxPointsConst]
  refine ⟨hs, hp, rfl, hr, ?_⟩
  rw [hs, hp, hm]
  norm_num

/-- Rounding zero gives zero. -/
theorem pyRound_zero (n : Nat) : pyRound n 0 = 0 := by
  unfold pyRound
  dsimp only
  rw [show (0 : Rat) * ((10 : Rat) ^ n) = ((0 : Nat) : Rat) by push_cast; ring,
    rat_floor_natCast]
  rw [show ((0 : Nat) : Rat) - (((0 : Nat) : Int) : Rat) = 0 by push_cast; ring]
  rw [if_pos (by norm_num)]
  push_cast
  norm_num

/-- The raw score of the fetch-error result is zero. -/
theorem rawScoreOf_errDict : rawScoreOf errDictVal = 0 := by with_unfolding_all rfl

/-- The stored percent of the fetch-error result is zero. -/
theorem errDict_percent (threshold : Rat) :
    (computeScoreRaw errDictVal threshold).percent = 0 := by
  show pyRound 1 (if maxPointsConst = 0 then (0 : Rat)
      else rawScoreOf errDictVal / maxPointsConst * 100) = 0
  rw [if_neg (by norm_num [maxPointsConst]), rawScoreOf_errDict,
    show (0 : Rat) / maxPointsConst * 100 = 0 by norm_num [maxPointsConst]]
  exact pyRound_zero 1

/-- Claim C5 (amended: a history entry IS appended for a fetch-failed URL —
it enters history with a zero score summary): when a URL's fetch fails, its
audit is aborted (the result holds no analyzer entry), the URL appears in the
batch output as an error report, the exit code is 2, and (unless history is
disabled) a history entry for that URL is appended whose score summary has
percent 0. -/
theorem fetch_error_flow (jobs : List UrlJob) (j : UrlJob) (threshold : Rat) (now : String)
    (hmem : j ∈ jobs) (hfail : j.fetched = none) :
    (∀ c : CheckName, (runAllChecks j.fetched j.outs).get? (nameStr c) = none) ∧
    (∃ item ∈ outputsOf threshold jobs,
      item.getD "url" .null = .str j.url ∧ hasFetchError item = true) ∧
    exitCodeOf (outputsOf threshold jobs) threshold = 2 ∧
    (∃ e ∈ historyEntriesOf now (outputsOf threshold jobs) false,
      e.getD "url" .null = .str j.url ∧
      (e.getD "score_summary" (.dict [])).get? "percent" = some (.num 0)) := by
  obtain ⟨url, fetched, outs⟩ := j
  cases hfail
  have hhas : hasFetchError (processJob threshold ⟨url, none, outs⟩) = true := rfl
  have hmem' : processJob threshold ⟨url, none, outs⟩ ∈ outputsOf threshold jobs :=
    List.mem_map_of_mem _ hmem
  refine ⟨?_, ?_, ?_, ?_⟩
  · intro c
    cases c <;> rfl
  · exact ⟨processJob threshold ⟨url, none, outs⟩, hmem', rfl, hhas⟩
  · unfold exitCodeOf
    rw [if_pos (List.any_eq_true.mpr ⟨_, hmem', hhas⟩)]
  · refine ⟨mkHistoryEntry now (processJob threshold ⟨url, none, outs⟩), ?_, rfl, ?_⟩
    · unfold historyEntriesOf
      rw [if_neg (by simp)]
      exact List.mem_map_of_mem _ hmem'
    · have hps : (mkHistoryEntry now (processJob threshold ⟨url, none, outs⟩)).getD
          "score_summary" (.dict []) = scoreSummaryToValue (computeScoreRaw errDictVal threshold) :=
        rfl
      rw [hps]
      show some (Value.num (computeScoreRaw errDictVal threshold).percent) = some (Value.num 0)
      rw [errDict_percent]

/-- A job whose fetch failed. -/
def jobFail : UrlJob := ⟨"https://fail.example", none, outsAllErr⟩

/-- Witness for C5 at a concrete batch with one fetch-failed URL. -/
theorem fetch_error_flow_witness :
    exitCodeOf (outputsOf 80 [jobFail]) 80 = 2 ∧
    (∃ e ∈ historyEntriesOf "2026-02-01T00:00:00Z" (outputsOf 80 [jobFail]) false,
      e.getD "url" .null = .str "https://fail.example" ∧
      (e.getD "score_summary" (.dict [])).get? "percent" = some (.num 0)) :=
  ⟨(fetch_error_flow [jobFail] jobFail 80 "2026-02-01T00:00:00Z"
      (List.mem_singleton.mpr rfl) rfl).2.2.1,
   (fetch_error_flow [jobFail] jobFail 80 "2026-02-01T00:00:00Z"
      (List.mem_singleton.mpr rfl) rfl).2.2.2⟩

/-- Counterexample to claim C5 as stated: the batch with one fetch-failed URL
appends exactly one history entry — for that URL — rather than none. -/
theorem fetch_error_history_cex :
    (historyEntriesOf "2026-02-01T00:00:00Z" (outputsOf 80 [jobFail]) false).length = 1 ∧
    ((historyEntriesOf "2026-02-01T00:00:00Z" (outputsOf 80 [jobFail]) false).headD .null).getD
        "url" .null = .str "https://fail.example" :=
  ⟨rfl, rfl⟩

/-- Looking up the key just set returns the new value. -/
theorem assocGet_set_self (l : List (String × Value)) (k : String) (x : Value) :
    assocGet (assocSet l k x) k = some x := by
  induction l with
  | nil => simp [assocSet, assocGet]
  | cons p t ih =>
    obtain ⟨k', v⟩ := p
    by_cases h : k' = k
    · subst h
      simp [assocSet, assocGet]
    · simp [assocSet, assocGet, h, ih]

/-- Setting one key leaves every other key's binding unchanged. -/
theorem assocGet_set_other (l : List (String × Value)) (k k' : String) (x : Value)
    (h : k' ≠ k) : assocGet (assocSet l k x) k' = assocGet l k' := by
  induction l with
  | nil =>
    have hne : ¬k = k' := fun hh => h hh.symm
    simp [assocSet, assocGet, hne]
  | cons p t ih =>
    obtain ⟨k0, v⟩ := p
    by_cases h0 : k0 = k
    · subst h0
      have hne : ¬k0 = k' := fun hh => h hh.symm
      simp [assocSet, assocGet, hne]
    · simp [assocSet, assocGet, h0, ih]

/-- Setting a key to the value it already has is a no-op. -/
theorem assocSet_same (l : List (String × Value)) (k : String) (x : Value)
    (h : assocGet l k = some x) : assocSet l k x = l := by
  induction l with
  | nil => simp [assocGet] at h
  | cons p t ih =>
    obtain ⟨k0, v⟩ := p
    by_cases h0 : k0 = k
    · subst h0
      simp [assocGet] at h
      simp [assocSet, h]
    · simp [assocGet, h0] at h
      simp [assocSet, h0, ih h]

/-- The updated association list is never empty. -/
theorem assocSet_ne_nil (l : List (String × Value)) (k : String) (x : Value) :
    assocSet l k x ≠ [] := by
  cases l with
  | nil => simp [assocSet]
  | cons p t =>
    obtain ⟨k0, v⟩ := p
    by_cases h0 : k0 = k
    · simp [assocSet, h0]
    · simp [assocSet, h0]

/-- The author result's status field, read back from a result mapping. -/
def authorStatusOf (v : Value) : Option Value :=
  ((v.getD "title_meta" (.dict [])).getD "author" (.dict [])).get? "status"

/-- The author result's message field, read back from a result mapping. -/
def authorMessageOf (v : Value) : Option Value :=
  ((v.getD "title_meta" (.dict [])).getD "author" (.dict [])).get? "message"

/-- If the declared author content is readable, the mapping, its title/meta
entry and its author entry are all dicts along that path. -/
theorem tmAuthorVal_shape (v : Value) (x : Value) (h : tmAuthorVal v = some x) :
    ∃ lv lt la, v = .dict lv ∧ assocGet lv "title_meta" = some (.dict lt) ∧
      assocGet lt "author" = some (.dict la) ∧ assocGet la "content" = some x := by
  unfold tmAuthorVal at h
  dsimp only at h
  cases v with
  | dict lv =>
    cases htm : assocGet lv "title_meta" with
    | none =>
      rw [show Value.getD (.dict lv) "title_meta" (.dict []) = .dict []
        by simp [Value.getD, Value.get?, htm]] at h
      simp [Value.getD, Value.get?, assocGet, Value.truthy] at h
    | some tm =>
      rw [show Value.getD (.dict lv) "title_meta" (.dict []) = tm
        by simp [Value.getD, Value.get?, htm]] at h
      cases tm with
      | dict lt =>
        cases hau : assocGet lt "author" with
        | none =>
          rw [show Value.getD (.dict lt) "author" (.dict []) = .dict []
            by simp [Value.getD, Value.get?, hau]] at h
          simp [Value.truthy, Value.get?, assocGet] at h
        | some au =>
          rw [show Value.getD (.dict lt) "author" (.dict []) = au
            by simp [Value.getD, Value.get?, hau]] at h
          cases au with
          | dict la =>
            by_cases ht : (Value.dict la).truthy
            · rw [if_pos ht] at h
              exact ⟨lv, lt, la, rfl, htm, hau, h⟩
            · rw [if_neg ht] at h
              simp [Value.get?, assocGet] at h
          | null => simp [Value.truthy, Value.get?, assocGet] at h
          | bool b => cases b <;> simp [Value.truthy, Value.get?, assocGet] at h
          | num q => by_cases hq : q = 0 <;> simp [Value.truthy, hq, Value.get?, assocGet] at h
          | str s => by_cases hs : s = "" <;> simp [Value.truthy, hs, Value.get?, assocGet] at h
          | list xs => cases xs <;> simp [Value.truthy, Value.get?, assocGet] at h
      | null => simp [Value.getD, Value.get?, Value.truthy, assocGet] at h
      | bool b => cases b <;> simp [Value.getD, Value.get?, Value.truthy, assocGet] at h
      | num q => simp [Value.getD, Value.get?, Value.truthy, assocGet] at h
      | str s => simp [Value.getD, Value.get?, Value.truthy, assocGet] at h
      | list xs => simp [Value.getD, Value.get?, Value.truthy, assocGet] at h
  | null => simp [Value.getD, Value.get?, Value.truthy, assocGet] at h
  | bool b => simp [Value.getD, Value.get?, Value.truthy, assocGet] at h
  | num q => simp [Value.getD, Value.get?, Value.truthy, assocGet] at h
  | str s => simp [Value.getD, Value.get?, Value.truthy, assocGet] at h
  | list xs => simp [Value.getD, Value.get?, Value.truthy, assocGet] at h

/-- Explicit form of `setAuthorFields` when the path exists. -/
theorem setAuthorFields_eq (lv lt la : List (String × Value))
    (htm : assocGet lv "title_meta" = some (.dict lt))
    (hau : assocGet lt "author" = some (.dict la)) (st m : String) :
    setAuthorFields (.dict lv) st m =
      .dict (assocSet lv "title_meta" (.dict (assocSet lt "author"
        (.dict (assocSet (assocSet la "status" (.str st)) "message" (.str m)))))) := by
  unfold setAuthorFields
  dsimp only
  rw [show Value.getD (.dict lv) "title_meta" (.dict []) = .dict lt
    by simp [Value.getD, Value.get?, htm]]
  rw [show Value.getD (.dict lt) "author" (.dict []) = .dict la
    by simp [Value.getD, Value.get?, hau]]
  rfl

/-- The author fields read back after `setAuthorFields`. -/
theorem setAuthorFields_reads (lv lt la : List (String × Value))
    (htm : assocGet lv "title_meta" = some (.dict lt))
    (hau : assocGet lt "author" = some (.dict la)) (st m : String) :
    authorStatusOf (setAuthorFields (.dict lv) st m) = some (.str st) ∧
    authorMessageOf (setAuthorFields (.dict lv) st m) = some (.str m) := by
  rw [setAuthorFields_eq lv lt la htm hau st m]
  unfold authorStatusOf authorMessageOf
  rw [show Value.getD (.dict (assocSet lv "title_meta" (.dict (assocSet lt "author"
        (.dict (assocSet (assocSet la "status" (.str st)) "message" (.str m)))))))
      "title_meta" (.dict []) = .dict (assocSet lt "author"
        (.dict (assocSet (assocSet la "status" (.str st)) "message" (.str m))))
    by simp [Value.getD, Value.get?, assocGet_set_self]]
  rw [show Value.getD (.dict (assocSet lt "author"
        (.dict (assocSet (assocSet la "status" (.str st)) "message" (.str m)))))
      "author" (.dict []) = .dict (assocSet (assocSet la "status" (.str st)) "message" (.str m))
    by simp [Value.getD, Value.get?, assocGet_set_self]]
  constructor
  · show assocGet (assocSet (assocSet la "status" (.str st)) "message" (.str m)) "status"
      = some (.str st)
    rw [assocGet_set_other _ _ _ _ (by decide), assocGet_set_self]
  · show assocGet (assocSet (assocSet la "status" (.str st)) "message" (.str m)) "message"
      = some (.str m)
    rw [assocGet_set_self]

/-- The declared author content survives `setAuthorFields`. -/
theorem tmAuthorVal_after_set (lv lt la : List (String × Value))
    (htm : assocGet lv "title_meta" = some (.dict lt))
    (hau : assocGet lt "author" = some (.dict la)) (st m : String) :
    tmAuthorVal (setAuthorFields (.dict lv) st m) = assocGet la "content" := by
  rw [setAuthorFields_eq lv lt la htm hau st m]
  unfold tmAuthorVal
  dsimp only
  rw [show Value.getD (.dict (assocSet lv "title_meta" (.dict (assocSet lt "author"
        (.dict (assocSet (assocSet la "status" (.str st)) "message" (.str m)))))))
      "title_meta" (.dict []) = .dict (assocSet lt "author"
        (.dict (assocSet (assocSet la "status" (.str st)) "message" (.str m))))
    by simp [Value.getD, Value.get?, assocGet_set_self]]
  rw [show Value.getD (.dict (assocSet lt "author"
        (.dict (assocSet (assocSet la "status" (.str st)) "message" (.str m)))))
      "author" (.dict []) = .dict (assocSet (assocSet la "status" (.str st)) "message" (.str m))
    by simp [Value.getD, Value.get?, assocGet_set_self]]
  rw [if_pos (by
    unfold Value.truthy
    dsimp only
    rw [if_neg (by simp [assocSet_ne_nil])])]
  show assocGet (assocSet (assocSet la "status" (.str st)) "message" (.str m)) "content"
      = assocGet la "content"
  rw [assocGet_set_other _ _ _ _ (by decide), assocGet_set_other _ _ _ _ (by decide)]

/-- The schema author list survives `setAuthorFields`. -/
theorem scAuthorsOf_after_set (lv lt la : List (String × Value))
    (htm : assocGet lv "title_meta" = some (.dict lt))
    (hau : assocGet lt "author" = some (.dict la)) (st m : String) :
    scAuthorsOf (setAuthorFields (.dict lv) st m) = scAuthorsOf (.dict lv) := by
  have h : Value.getD (setAuthorFields (.dict lv) st m) "schema" (.dict [])
      = Value.getD (.dict lv) "schema" (.dict []) := by
    rw [setAuthorFields_eq lv lt la htm hau st m]
    simp [Value.getD, Value.get?,
      assocGet_set_other _ _ _ _ (show ("schema" : String) ≠ "title_meta" by decide)]
  unfold scAuthorsOf
  rw [h]

/-- Re-applying `setAuthorFields` with the same fields is a no-op. -/
theorem setAuthorFields_idem (lv lt la : List (String × Value))
    (htm : assocGet lv "title_meta" = some (.dict lt))
    (hau : assocGet lt "author" = some (.dict la)) (st m : String) :
    setAuthorFields (setAuthorFields (.dict lv) st m) st m
      = setAuthorFields (.dict lv) st m := by
  rw [setAuthorFields_eq lv lt la htm hau st m]
  rw [setAuthorFields_eq (assocSet lv "title_meta" (.dict (assocSet lt "author"
        (.dict (assocSet (assocSet la "status" (.str st)) "message" (.str m))))))
      (assocSet lt "author" (.dict (assocSet (assocSet la "status" (.str st)) "message" (.str m))))
      (assocSet (assocSet la "status" (.str st)) "message" (.str m))
      (assocGet_set_self _ _ _) (assocGet_set_self _ _ _) st m]
  rw [show assocSet (assocSet (assocSet la "status" (.str st)) "message" (.str m))
        "status" (.str st) = assocSet (assocSet la "status" (.str st)) "message" (.str m)
    from assocSet_same _ _ _ (by rw [assocGet_set_other _ _ _ _ (by decide), assocGet_set_self])]
  rw [show assocSet (assocSet (assocSet la "status" (.str st)) "message" (.str m))
        "message" (.str m) = assocSet (assocSet la "status" (.str st)) "message" (.str m)
    from assocSet_same _ _ _ (assocGet_set_self _ _ _)]
  rw [show assocSet (assocSet lt "author" (.dict (assocSet (assocSet la "status" (.str st))
        "message" (.str m)))) "author" (.dict (assocSet (assocSet la "status" (.str st))
        "message" (.str m)))
      = assocSet lt "author" (.dict (assocSet (assocSet la "status" (.str st)) "message" (.str m)))
    from assocSet_same _ _ _ (assocGet_set_self _ _ _)]
  rw [show assocSet (assocSet lv "title_meta" (.dict (assocSet lt "author" (.dict (assocSet
        (assocSet la "status" (.str st)) "message" (.str m)))))) "title_meta"
        (.dict (assocSet lt "author" (.dict (assocSet (assocSet la "status" (.str st))
        "message" (.str m)))))
      = assocSet lv "title_meta" (.dict (assocSet lt "author" (.dict (assocSet
        (assocSet la "status" (.str st)) "message" (.str m)))))
    from assocSet_same _ _ _ (assocGet_set_self _ _ _)]

/-- When both sides are present and non-empty, `_author_match` revises the
author result according to the case-insensitive comparison. -/
theorem authorMatch_mut (v : Value) (ta : String) (hv : tmAuthorVal v = some (.str ta))
    (hta : ta ≠ "") (hsc : scAuthorsOf v ≠ []) :
    authorMatch v = (if (scAuthorsOf v).any (fun a => ta.pyLower = a.pyLower)
      then setAuthorFields v "ok" "Author matches schema."
      else setAuthorFields v "warning" "Author meta does not match schema author(s).") := by
  unfold authorMatch
  rw [hv]
  dsimp only
  rw [if_pos ⟨hta, hsc⟩]

/-- When either side is absent or empty (or the content is not a string),
`_author_match` leaves the results untouched. -/
theorem authorMatch_skip (v : Value)
    (h : (∀ ta : String, tmAuthorVal v = some (Value.str ta) → ta = "") ∨ scAuthorsOf v = []) :
    authorMatch v = v := by
  unfold authorMatch
  cases hv : tmAuthorVal v with
  | none => rfl
  | some x =>
    cases x with
    | str ta =>
      dsimp only
      rw [if_neg]
      rintro ⟨hta, hsc⟩
      rcases h with h | h
      · exact hta (h ta hv)
      · exact hsc h
    | null => rfl
    | bool b => rfl
    | num q => rfl
    | list xs => rfl
    | dict xs => rfl

/-- Claim C7: when both the declared author meta content and the schema
author list are present and non-empty, a case-insensitive match sets the
author result's status to the confirmed-ok value `ok` with a corroborating
message and a mismatch sets it to `warning` with an explanatory message;
when either side is absent (or empty) the mapping is left untouched; and
applying the rule a second time produces no further change. -/
theorem author_crosscheck (v : Value) :
    (∀ ta : String, tmAuthorVal v = some (Value.str ta) → ta ≠ "" → scAuthorsOf v ≠ [] →
      (((scAuthorsOf v).any (fun a => ta.pyLower = a.pyLower) = true →
        authorStatusOf (authorMatch v) = some (Value.str "ok") ∧
        authorMessageOf (authorMatch v) = some (Value.str "Author matches schema.")) ∧
       ((scAuthorsOf v).any (fun a => ta.pyLower = a.pyLower) = false →
        authorStatusOf (authorMatch v) = some (Value.str "warning") ∧
        authorMessageOf (authorMatch v)
          = some (Value.str "Author meta does not match schema author(s).")))) ∧
    (((∀ ta : String, tmAuthorVal v = some (Value.str ta) → ta = "") ∨ scAuthorsOf v = []) →
      authorMatch v = v) ∧
    authorMatch (authorMatch v) = authorMatch v := by
  refine ⟨?_, authorMatch_skip v, ?_⟩
  · intro ta hv hta hsc
    obtain ⟨lv, lt, la, hveq, htm, hau, hc⟩ := tmAuthorVal_shape v _ hv
    constructor
    · intro hany
      rw [authorMatch_mut v ta hv hta hsc, if_pos hany]
      subst hveq
      exact setAuthorFields_reads lv lt la htm hau _ _
    · intro hany
      rw [authorMatch_mut v ta hv hta hsc, if_neg (by simp [hany])]
      subst hveq
      exact setAuthorFields_reads lv lt la htm hau _ _
  · cases hv : tmAuthorVal v with
    | none =>
      have hskip := authorMatch_skip v (Or.inl (fun ta h => by rw [hv] at h; cases h))
      rw [hskip, hskip]
    | some x =>
      cases x with
      | str ta =>
        by_cases hta : ta = ""
        · have hskip := authorMatch_skip v (Or.inl (fun ta' h => by
            rw [hv] at h
            simp only [Option.some.injEq, Value.str.injEq] at h
            subst h
            exact hta))
          rw [hskip, hskip]
        · by_cases hsc : scAuthorsOf v = []
          · have hskip := authorMatch_skip v (Or.inr hsc)
            rw [hskip, hskip]
          · obtain ⟨lv, lt, la, hveq, htm, hau, hc⟩ := tmAuthorVal_shape v _ hv
            subst hveq
            cases hany : (scAuthorsOf (Value.dict lv)).any (fun a => ta.pyLower = a.pyLower) with
            | true =>
              have h1 : authorMatch (Value.dict lv)
                  = setAuthorFields (Value.dict lv) "ok" "Author matches schema." := by
                rw [authorMatch_mut _ ta hv hta hsc, if_pos hany]
              rw [h1]
              have hv' : tmAuthorVal (setAuthorFields (Value.dict lv) "ok"
                  "Author matches schema.") = some (Value.str ta) := by
                rw [tmAuthorVal_after_set lv lt la htm hau]
                exact hc
              have hsc' : scAuthorsOf (setAuthorFields (Value.dict lv) "ok"
                  "Author matches schema.") = scAuthorsOf (Value.dict lv) :=
                scAuthorsOf_after_set lv lt la htm hau _ _
              rw [authorMatch_mut _ ta hv' hta (by rw [hsc']; exact hsc)]
              rw [hsc', if_pos hany]
              exact setAuthorFields_idem lv lt la htm hau _ _
            | false =>
              have h1 : authorMatch (Value.dict lv) = setAuthorFields (Value.dict lv)
                  "warning" "Author meta does not match schema author(s)." := by
                rw [authorMatch_mut _ ta hv hta hsc, if_neg (by simp [hany])]
              rw [h1]
              have hv' : tmAuthorVal (setAuthorFields (Value.dict lv) "warning"
                  "Author meta does not match schema author(s).") = some (Value.str ta) := by
                rw [tmAuthorVal_after_set lv lt la htm hau]
                exact hc
              have hsc' : scAuthorsOf (setAuthorFields (Value.dict lv) "warning"
                  "Author meta does not match schema author(s).")
                  = scAuthorsOf (Value.dict lv) :=
                scAuthorsOf_after_set lv lt la htm hau _ _
              rw [authorMatch_mut _ ta hv' hta (by rw [hsc']; exact hsc)]
              rw [hsc', if_neg (by simp [hany])]
              exact setAuthorFields_idem lv lt la htm hau _ _
      | null =>
        have hskip := authorMatch_skip v (Or.inl (fun ta h => by
          rw [hv] at h; exact absurd h (by simp)))
        rw [hskip, hskip]
      | bool b =>
        have hskip := authorMatch_skip v (Or.inl (fun ta h => by
          rw [hv] at h; exact absurd h (by simp)))
        rw [hskip, hskip]
      | num q =>
        have hskip := authorMatch_skip v (Or.inl (fun ta h => by
          rw [hv] at h; exact absurd h (by simp)))
        rw [hskip, hskip]
      | list xs =>
        have hskip := authorMatch_skip v (Or.inl (fun ta h => by
          rw [hv] at h; exact absurd h (by simp)))
        rw [hskip, hskip]
      | dict xs =>
        have hskip := authorMatch_skip v (Or.inl (fun ta h => by
          rw [hv] at h; exact absurd h (by simp)))
        rw [hskip, hskip]

/-- A result mapping with a declared author and a matching schema author. -/
def vAuthor : Value :=
  .dict [("title_meta", .dict
            [("title", .dict [("found", .bool false), ("content", .null), ("status", .str "missing")]),
             ("meta_description", .dict [("found", .bool false), ("content", .null), ("status", .str "missing")]),
             ("author", .dict [("found", .bool true), ("content", .str "Jane Doe"), ("status", .str "ok")])]),
         ("schema", .dict
            [("schema_found", .bool true), ("schemas", .list []), ("types", .list []),
             ("authors", .list [.str "JANE DOE"]), ("faqpage_found", .bool false)])]

/-- Witness for C7: on a mapping with author meta "Jane Doe" and schema
author "JANE DOE", the cross-check confirms the author. -/
theorem author_crosscheck_witness :
    authorStatusOf (authorMatch vAuthor) = some (Value.str "ok") ∧
    authorMessageOf (authorMatch vAuthor) = some (Value.str "Author matches schema.") :=
  ((author_crosscheck vAuthor).1 "Jane Doe" rfl (by decide) (by decide)).1 (by decide)
